import Mathlib

/-!
Verification development for the multi-tenant context / audit-logging
subsystem of the service backend.

The definitions below are a shallow embedding of:
  backend/app/core/context.py        (RequestContext, get_request_context, ...)
  backend/app/core/middleware.py     (RequestContextMiddleware.dispatch)
  backend/app/abstractions/audit_logger.py
                                     (AuditEntry, AuditEntry.from_context,
                                      DatabaseAuditLogger.log / query,
                                      LoggingAuditLogger.query)
  backend/app/models/audit_log.py    (AuditLog durable record)

The persistent store is modelled as a list of AuditLog records; the
SQLAlchemy session's add/flush becomes an append, and the SELECT with
conjunctive WHERE clauses becomes a filter over that list.  Python's
uuid.UUID string constructor (which normalizes urn:/uuid: prefixes,
surrounding braces, hyphens and hexadecimal case, and raises ValueError
otherwise) is modelled by pyUUID, returning the canonical hyphenated
lowercase form exactly as str() of a UUID object would.  datetimes are
modelled as integers (microseconds since the epoch), dict values as
association lists.  Fallible Python paths (ValueError, TypeError,
pydantic ValidationError, RuntimeError) return Except values.
-/

/-- Arbitrary key-to-value mappings carried in old_values / new_values. -/
def Vals : Type := List (String × String)

instance : DecidableEq Vals := by
  unfold Vals
  infer_instance

deriving instance DecidableEq for Except

/-- Enumerated audit actions (class AuditAction, audit_logger.py). -/
inductive AuditAction where
  | create
  | read
  | update
  | delete
  | login
  | logout
  | login_failed
  | export_
  | import_
  | grant_access
  | revoke_access
deriving DecidableEq

/-- The .value string of each AuditAction enum member. -/
def AuditAction.value : AuditAction → String
  | .create => "create"
  | .read => "read"
  | .update => "update"
  | .delete => "delete"
  | .login => "login"
  | .logout => "logout"
  | .login_failed => "login_failed"
  | .export_ => "export"
  | .import_ => "import"
  | .grant_access => "grant_access"
  | .revoke_access => "revoke_access"

/-- AuditAction(s): enum lookup by value, None modelling ValueError. -/
def actionOfString (s : String) : Option AuditAction :=
  if s = "create" then some .create
  else if s = "read" then some .read
  else if s = "update" then some .update
  else if s = "delete" then some .delete
  else if s = "login" then some .login
  else if s = "logout" then some .logout
  else if s = "login_failed" then some .login_failed
  else if s = "export" then some .export_
  else if s = "import" then some .import_
  else if s = "grant_access" then some .grant_access
  else if s = "revoke_access" then some .revoke_access
  else none

/-- Enumerated classification levels (class DataClassification). -/
inductive DataClassification where
  | public
  | internal
  | confidential
  | restricted
deriving DecidableEq

/-- The .value string of each DataClassification enum member. -/
def DataClassification.value : DataClassification → String
  | .public => "public"
  | .internal => "internal"
  | .confidential => "confidential"
  | .restricted => "restricted"

/-- DataClassification(s): enum lookup by value. -/
def classificationOfString (s : String) : Option DataClassification :=
  if s = "public" then some .public
  else if s = "internal" then some .internal
  else if s = "confidential" then some .confidential
  else if s = "restricted" then some .restricted
  else none

/-! ### Python uuid.UUID string parsing

CPython's UUID(hex) does:
  hex = hex.replace('urn:', '').replace('uuid:', '')
  hex = hex.strip('{}').replace('-', '')
  if len(hex) != 32: raise ValueError
  int = int_(hex, 16)
and str(u) renders int as the canonical lowercase, zero-padded
8-4-4-4-12 form.  int(hex, 16) is laxer than pure hex digits: it strips
surrounding whitespace and then accepts an optional sign, an optional
0x/0X prefix and single underscores between digits (or right after the
prefix).  A minus sign can never reach it here, since every '-' was
removed by the replace, so the parsed value is always in UUID range
(at most 32 hex digits < 2^128) and the range check never fires. -/

/-- Remove every occurrence of "urn:" left to right (str.replace). -/
def dropUrn : List Char → List Char
  | 'u' :: 'r' :: 'n' :: ':' :: rest => dropUrn rest
  | c :: rest => c :: dropUrn rest
  | [] => []

/-- Remove every occurrence of "uuid:" left to right (str.replace). -/
def dropUuidColon : List Char → List Char
  | 'u' :: 'u' :: 'i' :: 'd' :: ':' :: rest => dropUuidColon rest
  | c :: rest => c :: dropUuidColon rest
  | [] => []

/-- str.strip of curly braces from both ends. -/
def stripBraces (cs : List Char) : List Char :=
  ((cs.dropWhile (fun c => c == '{' || c == '}')).reverse.dropWhile
      (fun c => c == '{' || c == '}')).reverse

/-- Hexadecimal digit test (the digits of any textual UUID form). -/
def isHexChar (c : Char) : Bool :=
  c.isDigit || ('a' ≤ c && c ≤ 'f') || ('A' ≤ c && c ≤ 'F')

/-- Whitespace characters stripped by Python's str.strip() and by
int()'s own surrounding-whitespace tolerance. -/
def isPySpace (c : Char) : Bool :=
  c == ' ' || c == '\t' || c == '\n' || c == '\r' || c == '\x0b' || c == '\x0c'

/-- str.strip(): drop whitespace from both ends. -/
def pyStripWs (cs : List Char) : List Char :=
  ((cs.dropWhile isPySpace).reverse.dropWhile isPySpace).reverse

/-- Value of one hexadecimal digit, as read by int(s, 16). -/
def hexVal (c : Char) : Option Nat :=
  if '0' ≤ c && c ≤ '9' then some (c.toNat - 48)
  else if 'a' ≤ c && c ≤ 'f' then some (c.toNat - 97 + 10)
  else if 'A' ≤ c && c ≤ 'F' then some (c.toNat - 65 + 10)
  else none

/-- Digits after the first one: int(s, 16) allows a single underscore
between digits (a trailing, doubled or misplaced underscore fails,
because hexVal of the following character is none). -/
def pyHexDigitsRest (acc : Nat) : List Char → Option Nat
  | [] => some acc
  | '_' :: c :: cs =>
    match hexVal c with
    | some d => pyHexDigitsRest (acc * 16 + d) cs
    | none => none
  | c :: cs =>
    match hexVal c with
    | some d => pyHexDigitsRest (acc * 16 + d) cs
    | none => none

/-- A digit run: at least one digit, then pyHexDigitsRest. -/
def pyHexBody : List Char → Option Nat
  | [] => none
  | c :: cs =>
    match hexVal c with
    | some d => pyHexDigitsRest d cs
    | none => none

/-- After a 0x/0X prefix one underscore may precede the first digit. -/
def pyHexPrefixedBody : List Char → Option Nat
  | '_' :: rest => pyHexBody rest
  | rest => pyHexBody rest

/-- int(s, 16): strip surrounding whitespace, accept an optional +
sign and an optional 0x/0X prefix, then hex digits with single
underscores.  ('-' cannot occur in UUID's use of this: every hyphen was
already removed.) -/
def pyInt16 (cs0 : List Char) : Option Nat :=
  let cs1 := pyStripWs cs0
  let cs2 := match cs1 with
    | '+' :: rest => rest
    | rest => rest
  match cs2 with
  | '0' :: 'x' :: rest => pyHexPrefixedBody rest
  | '0' :: 'X' :: rest => pyHexPrefixedBody rest
  | rest => pyHexBody rest

/-- One lowercase hex digit of a rendered value. -/
def toHexDigit (n : Nat) : Char :=
  if n < 10 then Char.ofNat (48 + n) else Char.ofNat (87 + n)

/-- '%032x': the value as 32 zero-padded lowercase hex digits. -/
def toHex32 (v : Nat) : List Char :=
  (List.range 32).map (fun i => toHexDigit (v / 16 ^ (31 - i) % 16))

/-- UUID(s) normalization: prefix/brace/hyphen removal, the 32-length
check, then int(s, 16); the digits of the parsed value.  none is
ValueError. -/
def pyUUIDhex (s : String) : Option (List Char) :=
  let cs := (stripBraces (dropUuidColon (dropUrn s.toList))).filter (fun c => c != '-')
  if cs.length = 32 then (pyInt16 cs).map toHex32 else none

/-- str() of a UUID: the canonical hyphenated 8-4-4-4-12 rendering. -/
def uuidCanon (h : List Char) : String :=
  String.mk (h.take 8 ++ '-' ::
    ((h.drop 8).take 4 ++ '-' ::
      ((h.drop 12).take 4 ++ '-' ::
        ((h.drop 16).take 4 ++ '-' :: h.drop 20))))

/-- Parse a string as Python's UUID and render it canonically;
none models the ValueError raised on a badly formed string. -/
def pyUUID (s : String) : Option String :=
  (pyUUIDhex s).map uuidCanon

/-! ### Request context (backend/app/core/context.py) -/

/-- dataclass RequestContext. -/
structure RequestContext where
  request_id : String
  tenant_id : String
  user_id : Option String
  user_email : Option String
  user_roles : List String
  session_id : Option String
  client_ip : Option String
  user_agent : Option String
deriving DecidableEq

/-- The ambient value of the _request_context ContextVar is passed
explicitly: none models a context variable that was never set. -/
def get_request_context (cv : Option RequestContext) : Except String RequestContext :=
  match cv with
  | none => Except.error "No request context available - are you in a request?"
  | some ctx => Except.ok ctx

/-- get_optional_request_context: the non-raising variant. -/
def get_optional_request_context (cv : Option RequestContext) : Option RequestContext :=
  cv

/-! ### Context establishment (RequestContextMiddleware.dispatch) -/

/-- Inbound request metadata seen by the middleware: the header multimap
(first match wins, as in Starlette's Headers.get) and request.client.host. -/
structure RequestMeta where
  headers : List (String × String)
  client : Option String
deriving DecidableEq

/-- request.headers.get(k): first header with the given name, if any. -/
def headerGet (hs : List (String × String)) (k : String) : Option String :=
  match hs.find? (fun p => p.fst == k) with
  | some p => some p.snd
  | none => none

/-- The characters before the first comma: split(",")[0]. -/
def beforeComma : List Char → List Char
  | [] => []
  | ',' :: _ => []
  | c :: cs => c :: beforeComma cs

/-- forwarded_for.split(",")[0].strip() -/
def firstForwarded (s : String) : String :=
  String.mk (pyStripWs (beforeComma s.toList))

/-- The RequestContext built by RequestContextMiddleware.dispatch.
freshReq stands for the str(uuid.uuid4()) generated when no
X-Request-ID header is supplied.  Note the bare truthiness test
`if forwarded_for:` in the source: a present-but-empty header behaves
like an absent one. -/
def RequestContextMiddleware.makeContext (freshReq : String) (m : RequestMeta) :
    RequestContext :=
  let request_id := match headerGet m.headers "X-Request-ID" with
    | some v => v
    | none => freshReq
  let tenant_id := match headerGet m.headers "X-Tenant-ID" with
    | some v => v
    | none => "default"
  let client_ip := match headerGet m.headers "X-Forwarded-For" with
    | some f => if f = "" then m.client else some (firstForwarded f)
    | none => m.client
  { request_id := request_id
    tenant_id := tenant_id
    user_id := none
    user_email := none
    user_roles := []
    session_id := none
    client_ip := client_ip
    user_agent := headerGet m.headers "User-Agent" }

/-! ### AuditEntry (pydantic model) and its from_context factory -/

/-- pydantic model AuditEntry.  request_id's default factory and the
timestamp default factory are supplied explicitly by callers of the
constructors below, so every field is plain data here. -/
structure AuditEntry where
  actor_id : String
  actor_type : String
  actor_ip : Option String
  action : AuditAction
  action_detail : Option String
  resource_type : String
  resource_id : String
  tenant_id : String
  request_id : String
  session_id : Option String
  timestamp : Int
  old_values : Option Vals
  new_values : Option Vals
  success : Bool
  error_message : Option String
  data_classification : DataClassification
deriving DecidableEq

/-- The **kwargs accepted by AuditEntry.from_context.  A `some` field
means the keyword was passed (for Optional-typed pydantic fields the
payload is itself an Option, since the keyword may carry None).  The
action / resource_type / resource_id keywords are representable because
passing them always collides with the positional arguments that
from_context itself forwards. -/
structure FromContextKwargs where
  actor_id : Option String
  actor_type : Option String
  actor_ip : Option (Option String)
  action : Option AuditAction
  action_detail : Option (Option String)
  resource_type : Option String
  resource_id : Option String
  tenant_id : Option String
  request_id : Option String
  session_id : Option (Option String)
  timestamp : Option Int
  old_values : Option (Option Vals)
  new_values : Option (Option Vals)
  success : Option Bool
  error_message : Option (Option String)
  data_classification : Option DataClassification
deriving DecidableEq

/-- The kwargs record with no keyword passed at all. -/
def FromContextKwargs.none' : FromContextKwargs :=
  { actor_id := none, actor_type := none, actor_ip := none, action := none
    action_detail := none, resource_type := none, resource_id := none
    tenant_id := none, request_id := none, session_id := none, timestamp := none
    old_values := none, new_values := none, success := none, error_message := none
    data_classification := none }

/-- Failure modes of AuditEntry.from_context: TypeError from a keyword
argument that repeats an explicitly passed one, and pydantic's
ValidationError for a missing required field. -/
inductive FromContextError where
  | duplicateKeyword
  | validationError
deriving DecidableEq

/-- AuditEntry.from_context.  The ambient context (the ContextVar read by
get_optional_request_context) is passed as cv; now models the
datetime.now(timezone.utc) default factory and freshReq the str(uuid4())
request_id default factory.  In the context branch the call passes
actor_id, actor_ip, action, resource_type, resource_id, tenant_id,
request_id and session_id explicitly, so a kwarg with any of those names
raises TypeError; in both branches action, resource_type and resource_id
are passed explicitly.  Note `ctx.user_id or "anonymous"`: Python
truthiness makes an empty-string user_id fall back to "anonymous" too. -/
def AuditEntry.from_context (cv : Option RequestContext) (now : Int) (freshReq : String)
    (action : AuditAction) (resource_type resource_id : String)
    (kw : FromContextKwargs) : Except FromContextError AuditEntry :=
  if kw.action.isSome || kw.resource_type.isSome || kw.resource_id.isSome then
    Except.error FromContextError.duplicateKeyword
  else
    match get_optional_request_context cv with
    | some ctx =>
      if kw.actor_id.isSome || kw.actor_ip.isSome || kw.tenant_id.isSome ||
          kw.request_id.isSome || kw.session_id.isSome then
        Except.error FromContextError.duplicateKeyword
      else
        Except.ok
          { actor_id := match ctx.user_id with
              | some u => if u = "" then "anonymous" else u
              | none => "anonymous"
            actor_type := kw.actor_type.getD "user"
            actor_ip := ctx.client_ip
            action := action
            action_detail := kw.action_detail.getD none
            resource_type := resource_type
            resource_id := resource_id
            tenant_id := ctx.tenant_id
            request_id := ctx.request_id
            session_id := ctx.session_id
            timestamp := kw.timestamp.getD now
            old_values := kw.old_values.getD none
            new_values := kw.new_values.getD none
            success := kw.success.getD true
            error_message := kw.error_message.getD none
            data_classification := kw.data_classification.getD .internal }
    | none =>
      match kw.actor_id, kw.tenant_id with
      | some aid, some tid =>
        Except.ok
          { actor_id := aid
            actor_type := kw.actor_type.getD "user"
            actor_ip := kw.actor_ip.getD none
            action := action
            action_detail := kw.action_detail.getD none
            resource_type := resource_type
            resource_id := resource_id
            tenant_id := tid
            request_id := kw.request_id.getD freshReq
            session_id := kw.session_id.getD none
            timestamp := kw.timestamp.getD now
            old_values := kw.old_values.getD none
            new_values := kw.new_values.getD none
            success := kw.success.getD true
            error_message := kw.error_message.getD none
            data_classification := kw.data_classification.getD .internal }
      | _, _ => Except.error FromContextError.validationError

/-! ### Durable audit record (backend/app/models/audit_log.py)

UUID-typed columns hold UUID objects; in the model they hold the
canonical string rendering (equal UUIDs have equal canonical strings).
action and data_classification are stored as their .value strings, as in
the source. -/

/-- One row of the audit_logs table. -/
structure AuditLog where
  id : String
  actor_id : String
  actor_type : String
  actor_ip : Option String
  action : String
  action_detail : Option String
  resource_type : String
  resource_id : String
  tenant_id : String
  request_id : String
  session_id : Option String
  timestamp : Int
  old_values : Option Vals
  new_values : Option Vals
  success : Bool
  error_message : Option String
  data_classification : String
deriving DecidableEq

/-- The errors DatabaseAuditLogger can raise while converting entry
fields (ValueError from UUID / enum constructors). -/
inductive PyErr where
  | valueError
deriving DecidableEq

/-- DatabaseAuditLogger.log.  The session is the store (a list of rows);
add + flush append one row.  freshActor models the uuid4() substituted
for the literal actor_id "anonymous"; freshId models the uuid4() default
of the id column.  On a conversion ValueError nothing is added: the pair
carries the unchanged store next to the error. -/
def DatabaseAuditLogger.log (freshActor freshId : String) (entry : AuditEntry)
    (store : List AuditLog) : Except PyErr String × List AuditLog :=
  let actorU : Option String :=
    if entry.actor_id = "anonymous" then some freshActor else pyUUID entry.actor_id
  let sessU : Option (Option String) :=
    match entry.session_id with
    | some s => if s = "" then some none else (pyUUID s).map some
    | none => some none
  match actorU, pyUUID entry.tenant_id, pyUUID entry.request_id, sessU with
  | some aU, some tU, some rU, some sU =>
    (Except.ok freshId,
      store ++ [{ id := freshId
                  actor_id := aU
                  actor_type := entry.actor_type
                  actor_ip := entry.actor_ip
                  action := entry.action.value
                  action_detail := entry.action_detail
                  resource_type := entry.resource_type
                  resource_id := entry.resource_id
                  tenant_id := tU
                  request_id := rU
                  session_id := sU
                  timestamp := entry.timestamp
                  old_values := entry.old_values
                  new_values := entry.new_values
                  success := entry.success
                  error_message := entry.error_message
                  data_classification := entry.data_classification.value }])
  | _, _, _, _ => (Except.error PyErr.valueError, store)

/-- The AuditEntry reconstructed from a row by DatabaseAuditLogger.query's
result comprehension; none models the ValueError AuditAction(log.action)
or DataClassification(log.data_classification) would raise on a corrupt
row. -/
def recToEntry (r : AuditLog) : Option AuditEntry :=
  match actionOfString r.action, classificationOfString r.data_classification with
  | some a, some d =>
    some { actor_id := r.actor_id
           actor_type := r.actor_type
           actor_ip := r.actor_ip
           action := a
           action_detail := r.action_detail
           resource_type := r.resource_type
           resource_id := r.resource_id
           tenant_id := r.tenant_id
           request_id := r.request_id
           session_id := r.session_id
           timestamp := r.timestamp
           old_values := r.old_values
           new_values := r.new_values
           success := r.success
           error_message := r.error_message
           data_classification := d }
  | _, _ => none

/-- Convert rows in order, failing on the first inconvertible row,
exactly as the list comprehension in query does. -/
def mapMrec : List AuditLog → Option (List AuditEntry)
  | [] => some []
  | r :: rs =>
    match recToEntry r, mapMrec rs with
    | some e, some es => some (e :: es)
    | _, _ => none

/-- Insert one row into a timestamp-descending list (ORDER BY helper). -/
def insertDesc (r : AuditLog) : List AuditLog → List AuditLog
  | [] => [r]
  | x :: xs => if r.timestamp ≤ x.timestamp then x :: insertDesc r xs else r :: x :: xs

/-- ORDER BY timestamp DESC: a sort of the selected rows. -/
def sortDesc : List AuditLog → List AuditLog
  | [] => []
  | x :: xs => insertDesc x (sortDesc xs)

/-- `if actor_id:` then WHERE actor_id == UUID(actor_id).
none is the ValueError of UUID on a truthy non-UUID string; some none
means no actor clause (argument absent or empty string, both falsy);
some (some u) is the clause value. -/
def parseActorFilter : Option String → Option (Option String)
  | some a => if a = "" then some none else (pyUUID a).map some
  | none => some none

/-- Python truthiness of an optional string argument: `if s:` takes the
branch only for a present non-empty string. -/
def truthyOpt : Option String → Option String
  | some s => if s = "" then none else some s
  | none => none

/-- The conjunction of WHERE clauses built by DatabaseAuditLogger.query:
the mandatory tenant clause plus one clause per truthy filter argument.
start_time / end_time are inclusive bounds, as in the source. -/
def keepRec (tU : String) (actorU : Option String) (rt rid : Option String)
    (action : Option AuditAction) (st et : Option Int) (r : AuditLog) : Bool :=
  r.tenant_id == tU &&
  (match actorU with | some u => r.actor_id == u | none => true) &&
  (match rt with | some s => r.resource_type == s | none => true) &&
  (match rid with | some s => r.resource_id == s | none => true) &&
  (match action with | some a => r.action == AuditAction.value a | none => true) &&
  (match st with | some t => decide (t ≤ r.timestamp) | none => true) &&
  (match et with | some t => decide (r.timestamp ≤ t) | none => true)

/-- DatabaseAuditLogger.query: WHERE tenant_id == UUID(tenant_id), the
optional clauses ANDed, ORDER BY timestamp DESC, OFFSET, LIMIT, then the
row-to-entry comprehension. -/
def DatabaseAuditLogger.query (store : List AuditLog) (tenant_id : String)
    (actor_id resource_type resource_id : Option String)
    (action : Option AuditAction) (start_time end_time : Option Int)
    (lim off : Nat) : Except PyErr (List AuditEntry) :=
  match pyUUID tenant_id with
  | none => Except.error PyErr.valueError
  | some tU =>
    match parseActorFilter actor_id with
    | none => Except.error PyErr.valueError
    | some actorU =>
      match mapMrec (((sortDesc (store.filter
          (keepRec tU actorU (truthyOpt resource_type) (truthyOpt resource_id)
            action start_time end_time))).drop off).take lim) with
      | some es => Except.ok es
      | none => Except.error PyErr.valueError

/-! ### The Audit Logger API surface over the persistent store -/

/-- One call on the AuditLogger capability interface. -/
inductive APICall where
  | logCall (freshActor freshId : String) (entry : AuditEntry)
  | queryCall (tenant_id : String) (actor_id resource_type resource_id : Option String)
      (action : Option AuditAction) (start_time end_time : Option Int) (lim off : Nat)

/-- The store after one API call: log may append, query reads only. -/
def apiStep (store : List AuditLog) : APICall → List AuditLog
  | .logCall fa fi e => (DatabaseAuditLogger.log fa fi e store).2
  | .queryCall .. => store

/-- The store after a sequence of API calls. -/
def apiRun (store : List AuditLog) : List APICall → List AuditLog
  | [] => store
  | c :: cs => apiRun (apiStep store c) cs

/-! ### Fallback implementation (LoggingAuditLogger) -/

/-- LoggingAuditLogger.query: ignores every filter, emits a warning to
the structured log stream and returns the empty list.  The result is the
returned sequence paired with the warning lines emitted. -/
def LoggingAuditLogger.query {α : Type} (tenant_id : String) (kwargs : α) :
    List AuditEntry × List String :=
  ([], ["Audit query not supported for LoggingAuditLogger"])

/-! ### Helper lemmas -/

/-- Looking an action up by its own .value returns that action. -/
theorem actionOfString_value (a : AuditAction) : actionOfString a.value = some a := by
  cases a <;> rfl

/-- Looking a classification up by its own .value returns it. -/
theorem classificationOfString_value (d : DataClassification) :
    classificationOfString d.value = some d := by
  cases d <;> rfl

/-- Field content of a successfully reconstructed entry. -/
theorem recToEntry_fields {r : AuditLog} {e : AuditEntry} (h : recToEntry r = some e) :
    e.actor_id = r.actor_id ∧ e.actor_type = r.actor_type ∧ e.actor_ip = r.actor_ip ∧
    actionOfString r.action = some e.action ∧ e.action_detail = r.action_detail ∧
    e.resource_type = r.resource_type ∧ e.resource_id = r.resource_id ∧
    e.tenant_id = r.tenant_id ∧ e.request_id = r.request_id ∧
    e.session_id = r.session_id ∧ e.timestamp = r.timestamp ∧
    e.old_values = r.old_values ∧ e.new_values = r.new_values ∧
    e.success = r.success ∧ e.error_message = r.error_message ∧
    classificationOfString r.data_classification = some e.data_classification := by
  unfold recToEntry at h
  cases ha : actionOfString r.action with
  | none => rw [ha] at h; exact absurd h (by simp)
  | some a =>
    cases hd : classificationOfString r.data_classification with
    | none => rw [ha, hd] at h; exact absurd h (by simp)
    | some d =>
      rw [ha, hd] at h
      cases h
      simp

/-- Membership in an insertDesc result. -/
theorem mem_insertDesc {a r : AuditLog} {l : List AuditLog} :
    a ∈ insertDesc r l ↔ a = r ∨ a ∈ l := by
  induction l with
  | nil => simp [insertDesc]
  | cons x xs ih =>
    unfold insertDesc
    by_cases h : r.timestamp ≤ x.timestamp
    · simp only [if_pos h, List.mem_cons, ih]
      tauto
    · simp only [if_neg h, List.mem_cons]

/-- sortDesc permutes membership. -/
theorem mem_sortDesc {a : AuditLog} {l : List AuditLog} :
    a ∈ sortDesc l ↔ a ∈ l := by
  induction l with
  | nil => simp [sortDesc]
  | cons x xs ih =>
    unfold sortDesc
    rw [mem_insertDesc]
    simp [ih]

/-- insertDesc grows the length by one. -/
theorem length_insertDesc (r : AuditLog) (l : List AuditLog) :
    (insertDesc r l).length = l.length + 1 := by
  induction l with
  | nil => rfl
  | cons x xs ih =>
    unfold insertDesc
    by_cases h : r.timestamp ≤ x.timestamp <;> simp [h, ih]

/-- sortDesc preserves length. -/
theorem length_sortDesc (l : List AuditLog) : (sortDesc l).length = l.length := by
  induction l with
  | nil => rfl
  | cons x xs ih => unfold sortDesc; rw [length_insertDesc, ih]; simp

/-- The timestamp-descending order on rows. -/
def tsGeRec (a b : AuditLog) : Prop := b.timestamp ≤ a.timestamp

/-- insertDesc keeps a timestamp-descending list descending. -/
theorem pairwise_insertDesc {r : AuditLog} {l : List AuditLog}
    (h : l.Pairwise tsGeRec) : (insertDesc r l).Pairwise tsGeRec := by
  induction l with
  | nil => simp [insertDesc, List.Pairwise]
  | cons x xs ih =>
    unfold insertDesc
    rcases List.pairwise_cons.mp h with ⟨hx, hxs⟩
    by_cases hc : r.timestamp ≤ x.timestamp
    · simp only [if_pos hc]
      refine List.pairwise_cons.mpr ⟨?_, ih hxs⟩
      intro b hb
      rcases mem_insertDesc.mp hb with hb | hb
      · rw [hb]; exact hc
      · exact hx b hb
    · simp only [if_neg hc]
      refine List.pairwise_cons.mpr ⟨?_, h⟩
      intro b hb
      rcases List.mem_cons.mp hb with hb | hb
      · rw [hb]; exact le_of_not_le hc
      · exact le_trans (hx b hb) (le_of_not_le hc)

/-- sortDesc output is timestamp-descending. -/
theorem pairwise_sortDesc (l : List AuditLog) : (sortDesc l).Pairwise tsGeRec := by
  induction l with
  | nil => simp [sortDesc, List.Pairwise]
  | cons x xs ih => exact pairwise_insertDesc ih

/-- Every converted entry comes from a row of the input list. -/
theorem mapMrec_mem {l : List AuditLog} {es : List AuditEntry}
    (h : mapMrec l = some es) {e : AuditEntry} (he : e ∈ es) :
    ∃ r ∈ l, recToEntry r = some e := by
  induction l generalizing es with
  | nil =>
    unfold mapMrec at h
    cases h
    cases he
  | cons r rs ih =>
    unfold mapMrec at h
    cases hr : recToEntry r with
    | none => rw [hr] at h; exact absurd h (by simp)
    | some e0 =>
      cases hrs : mapMrec rs with
      | none => rw [hr, hrs] at h; exact absurd h (by simp)
      | some es0 =>
        rw [hr, hrs] at h
        cases h
        rcases List.mem_cons.mp he with he | he
        · exact ⟨r, List.mem_cons_self .., by rw [hr, he]⟩
        · rcases ih hrs he with ⟨r', hr', hconv⟩
          exact ⟨r', List.mem_cons_of_mem _ hr', hconv⟩

/-- Every input row contributes a converted entry. -/
theorem mapMrec_mem_of {l : List AuditLog} {es : List AuditEntry}
    (h : mapMrec l = some es) {r : AuditLog} (hr : r ∈ l) :
    ∃ e ∈ es, recToEntry r = some e := by
  induction l generalizing es with
  | nil => cases hr
  | cons r0 rs ih =>
    unfold mapMrec at h
    cases hr0 : recToEntry r0 with
    | none => rw [hr0] at h; exact absurd h (by simp)
    | some e0 =>
      cases hrs : mapMrec rs with
      | none => rw [hr0, hrs] at h; exact absurd h (by simp)
      | some es0 =>
        rw [hr0, hrs] at h
        cases h
        rcases List.mem_cons.mp hr with hr | hr
        · exact ⟨e0, List.mem_cons_self .., by rw [hr]; exact hr0⟩
        · rcases ih hrs hr with ⟨e', he', hconv⟩
          exact ⟨e', List.mem_cons_of_mem _ he', hconv⟩

/-- Conversion preserves the length of the list. -/
theorem mapMrec_length {l : List AuditLog} {es : List AuditEntry}
    (h : mapMrec l = some es) : es.length = l.length := by
  induction l generalizing es with
  | nil => unfold mapMrec at h; cases h; rfl
  | cons r rs ih =>
    unfold mapMrec at h
    cases hr : recToEntry r with
    | none => rw [hr] at h; exact absurd h (by simp)
    | some e0 =>
      cases hrs : mapMrec rs with
      | none => rw [hr, hrs] at h; exact absurd h (by simp)
      | some es0 =>
        rw [hr, hrs] at h
        cases h
        simp [ih hrs]

/-- Conversion preserves the timestamp-descending order. -/
theorem mapMrec_pairwise {l : List AuditLog} {es : List AuditEntry}
    (h : mapMrec l = some es) (hp : l.Pairwise tsGeRec) :
    es.Pairwise (fun a b => b.timestamp ≤ a.timestamp) := by
  induction l generalizing es with
  | nil => unfold mapMrec at h; cases h; simp [List.Pairwise]
  | cons r rs ih =>
    unfold mapMrec at h
    cases hr : recToEntry r with
    | none => rw [hr] at h; exact absurd h (by simp)
    | some e0 =>
      cases hrs : mapMrec rs with
      | none => rw [hr, hrs] at h; exact absurd h (by simp)
      | some es0 =>
        rw [hr, hrs] at h
        cases h
        rcases List.pairwise_cons.mp hp with ⟨hhead, htail⟩
        refine List.pairwise_cons.mpr ⟨?_, ih hrs htail⟩
        intro e' he'
        rcases mapMrec_mem hrs he' with ⟨r', hr'mem, hr'conv⟩
        have h1 := (recToEntry_fields hr'conv).2.2.2.2.2.2.2.2.2.2.1
        have h2 := (recToEntry_fields hr).2.2.2.2.2.2.2.2.2.2.1
        rw [h1, h2]
        exact hhead r' hr'mem

/-- Conversion commutes with dropping a prefix of rows. -/
theorem mapMrec_drop {l : List AuditLog} {es : List AuditEntry}
    (h : mapMrec l = some es) (n : Nat) :
    mapMrec (l.drop n) = some (es.drop n) := by
  induction n generalizing l es with
  | zero => simpa using h
  | succ n ih =>
    cases l with
    | nil =>
      unfold mapMrec at h
      cases h
      rfl
    | cons r rs =>
      unfold mapMrec at h
      cases hr : recToEntry r with
      | none => rw [hr] at h; exact absurd h (by simp)
      | some e0 =>
        cases hrs : mapMrec rs with
        | none => rw [hr, hrs] at h; exact absurd h (by simp)
        | some es0 =>
          rw [hr, hrs] at h
          cases h
          simpa using ih hrs

/-- If every row of a list converts, the whole list converts. -/
theorem mapMrec_isSome {l : List AuditLog}
    (h : ∀ r ∈ l, (recToEntry r).isSome = true) : ∃ es, mapMrec l = some es := by
  induction l with
  | nil => exact ⟨[], rfl⟩
  | cons r rs ih =>
    have hr := h r (List.mem_cons_self ..)
    cases hcr : recToEntry r with
    | none => rw [hcr] at hr; cases hr
    | some e0 =>
      rcases ih (fun x hx => h x (List.mem_cons_of_mem _ hx)) with ⟨es, hes⟩
      exact ⟨e0 :: es, by unfold mapMrec; rw [hcr, hes]⟩

/-- log never removes rows: the store after log extends the store before. -/
theorem log_snd_extends (fa fi : String) (e : AuditEntry) (store : List AuditLog) :
    ∃ suffix, (DatabaseAuditLogger.log fa fi e store).2 = store ++ suffix := by
  simp only [DatabaseAuditLogger.log]
  split
  · exact ⟨_, rfl⟩
  · exact ⟨[], (List.append_nil store).symm⟩

/-- Any sequence of API calls only ever appends to the store. -/
theorem apiRun_extends (calls : List APICall) :
    ∀ store, ∃ suffix, apiRun store calls = store ++ suffix := by
  induction calls with
  | nil => exact fun store => ⟨[], by simp [apiRun]⟩
  | cons c cs ih =>
    intro store
    have hstep : ∃ t, apiStep store c = store ++ t := by
      cases c with
      | logCall fa fi e => exact log_snd_extends fa fi e store
      | queryCall _ _ _ _ _ _ _ _ _ => exact ⟨[], by simp [apiStep]⟩
    rcases hstep with ⟨t, ht⟩
    rcases ih (apiStep store c) with ⟨s, hs⟩
    exact ⟨t ++ s, by simp only [apiRun]; rw [hs, ht, List.append_assoc]⟩

/-- Claim C7: current() — get_request_context — fails with the NoContext
condition (a raised RuntimeError) when no ambient context is installed
and never returns a default Context; get_optional_request_context
returns an absent value there; both return the installed context when
one exists. -/
theorem current_requires_scope :
    (get_request_context none =
      Except.error "No request context available - are you in a request?") ∧
    (get_optional_request_context none = (none : Option RequestContext)) ∧
    (∀ ctx : RequestContext,
      get_request_context (some ctx) = Except.ok ctx ∧
      get_optional_request_context (some ctx) = some ctx) :=
  ⟨rfl, rfl, fun _ => ⟨rfl, rfl⟩⟩

/-- Claim C6: the Fallback Audit Logger's query returns the empty
sequence for every combination of arguments and always pairs it with the
warning emitted to the structured log stream, so it is distinguishable
from a genuinely empty persistent result (which carries no warning). -/
theorem fallback_query_empty_with_warning {α : Type} (tenant_id : String) (kwargs : α) :
    (LoggingAuditLogger.query tenant_id kwargs).1 = [] ∧
    (LoggingAuditLogger.query tenant_id kwargs).2 =
      ["Audit query not supported for LoggingAuditLogger"] :=
  ⟨rfl, rfl⟩

/-- Claim C3: from_context invoked with no ambient Context and no
explicit tenant_id never constructs an AuditEntry, and (when no keyword
collides with the positional arguments) the failure is pydantic's
missing-required-field ValidationError — the MissingContext condition. -/
theorem from_context_requires_explicit_tenant (now : Int) (freshReq : String)
    (action : AuditAction) (resource_type resource_id : String)
    (kw : FromContextKwargs) (h : kw.tenant_id = none) :
    (∀ e, AuditEntry.from_context none now freshReq action resource_type resource_id kw ≠
      Except.ok e) ∧
    (kw.action = none → kw.resource_type = none → kw.resource_id = none →
      AuditEntry.from_context none now freshReq action resource_type resource_id kw =
        Except.error FromContextError.validationError) := by
  constructor
  · intro e
    unfold AuditEntry.from_context get_optional_request_context
    by_cases hdup : (kw.action.isSome || kw.resource_type.isSome || kw.resource_id.isSome) = true
    · simp [hdup]
    · simp only [Bool.not_eq_true] at hdup
      simp only [hdup, if_neg Bool.false_ne_true]
      rw [h]
      cases kw.actor_id <;> simp
  · intro h1 h2 h3
    unfold AuditEntry.from_context get_optional_request_context
    simp only [h1, h2, h3, h, Option.isSome_none, Bool.or_self, Bool.false_or,
      if_neg Bool.false_ne_true]
    cases kw.actor_id <;> simp

/-- Claim C3 witness: the empty keyword set with no ambient context. -/
theorem from_context_requires_explicit_tenant_witness :
    (∀ e, AuditEntry.from_context none 0 "r" AuditAction.read "document" "d1"
        FromContextKwargs.none' ≠ Except.ok e) ∧
    (FromContextKwargs.none'.action = none → FromContextKwargs.none'.resource_type = none →
      FromContextKwargs.none'.resource_id = none →
      AuditEntry.from_context none 0 "r" AuditAction.read "document" "d1"
        FromContextKwargs.none' = Except.error FromContextError.validationError) :=
  from_context_requires_explicit_tenant 0 "r" AuditAction.read "document" "d1"
    FromContextKwargs.none' (by decide)

/-- Claim C10 (amended): an entry whose tenant_id or request_id is
rejected by Python's UUID string constructor makes
DatabaseAuditLogger.log raise ValueError during field conversion,
before anything reaches the session: the store is unchanged and no
record is persisted.  (That constructor accepts slightly more than the
syntactically valid UUID strings, because int(hex, 16) tolerates a
sign, a 0x prefix, underscores and surrounding whitespace within the
32 characters.) -/
theorem log_rejects_invalid_uuid (freshActor freshId : String) (e : AuditEntry)
    (store : List AuditLog)
    (h : pyUUID e.tenant_id = none ∨ pyUUID e.request_id = none) :
    DatabaseAuditLogger.log freshActor freshId e store =
      (Except.error PyErr.valueError, store) := by
  simp only [DatabaseAuditLogger.log]
  split
  · rcases h with h | h <;> simp_all
  · rfl

/-- Claim C10 witness: the sentinel tenant "default" installed by the
middleware when no tenant header is supplied is not a UUID, so logging
such an entry fails and persists nothing. -/
theorem log_rejects_invalid_uuid_witness :
    pyUUID "default" = none ∧
    DatabaseAuditLogger.log "99999999-9999-9999-9999-999999999999"
      "88888888-8888-8888-8888-888888888888"
      { actor_id := "33333333-3333-3333-3333-333333333333"
        actor_type := "user", actor_ip := none
        action := AuditAction.login, action_detail := none
        resource_type := "user", resource_id := "u1"
        tenant_id := "default"
        request_id := "11111111-1111-1111-1111-111111111111"
        session_id := none, timestamp := 0
        old_values := none, new_values := none, success := true
        error_message := none
        data_classification := DataClassification.internal } [] =
      (Except.error PyErr.valueError, []) :=
  ⟨by decide, log_rejects_invalid_uuid _ _ _ _ (Or.inl (by decide))⟩

/-- Claim C4: the persistent audit store is append-only through the API
surface: a record once stored survives, unchanged, every later sequence
of log and query calls, and the later store always extends the earlier
one. -/
theorem audit_store_append_only (store : List AuditLog) (calls : List APICall)
    (r : AuditLog) (h : r ∈ store) :
    r ∈ apiRun store calls ∧ ∃ suffix, apiRun store calls = store ++ suffix := by
  rcases apiRun_extends calls store with ⟨suffix, hsuf⟩
  refine ⟨?_, suffix, hsuf⟩
  rw [hsuf]
  exact List.mem_append_left _ h

/-- A sample request context with a resolved user. -/
def ctxSample : RequestContext :=
  { request_id := "11111111-1111-1111-1111-111111111111"
    tenant_id := "22222222-2222-2222-2222-222222222222"
    user_id := some "33333333-3333-3333-3333-333333333333"
    user_email := none
    user_roles := []
    session_id := some "55555555-5555-5555-5555-555555555555"
    client_ip := some "10.0.0.1"
    user_agent := none }

/-- Claim C5 (amended): with an ambient Context and extraFields
containing none of the explicitly forwarded keyword names, from_context
populates actor_id from the resolved user (the literal "anonymous" when
the context has no resolved — non-empty — user id), copies actor_ip,
tenant_id, request_id and session_id from the context, and overlays
every remaining extraFields pair (default when absent). -/
theorem from_context_with_ambient (ctx : RequestContext) (now : Int) (freshReq : String)
    (action : AuditAction) (resource_type resource_id : String) (kw : FromContextKwargs)
    (h1 : kw.action = none) (h2 : kw.resource_type = none) (h3 : kw.resource_id = none)
    (h4 : kw.actor_id = none) (h5 : kw.actor_ip = none) (h6 : kw.tenant_id = none)
    (h7 : kw.request_id = none) (h8 : kw.session_id = none) :
    ∃ e, AuditEntry.from_context (some ctx) now freshReq action resource_type resource_id
        kw = Except.ok e ∧
      (∀ u, ctx.user_id = some u → u ≠ "" → e.actor_id = u) ∧
      (ctx.user_id = none → e.actor_id = "anonymous") ∧
      (ctx.user_id = some "" → e.actor_id = "anonymous") ∧
      e.actor_ip = ctx.client_ip ∧ e.tenant_id = ctx.tenant_id ∧
      e.request_id = ctx.request_id ∧ e.session_id = ctx.session_id ∧
      e.action = action ∧ e.resource_type = resource_type ∧
      e.resource_id = resource_id ∧
      e.actor_type = kw.actor_type.getD "user" ∧
      e.action_detail = kw.action_detail.getD none ∧
      e.timestamp = kw.timestamp.getD now ∧
      e.old_values = kw.old_values.getD none ∧
      e.new_values = kw.new_values.getD none ∧
      e.success = kw.success.getD true ∧
      e.error_message = kw.error_message.getD none ∧
      e.data_classification = kw.data_classification.getD DataClassification.internal := by
  have hok : AuditEntry.from_context (some ctx) now freshReq action resource_type
      resource_id kw = Except.ok
        { actor_id := match ctx.user_id with
            | some u => if u = "" then "anonymous" else u
            | none => "anonymous"
          actor_type := kw.actor_type.getD "user"
          actor_ip := ctx.client_ip
          action := action
          action_detail := kw.action_detail.getD none
          resource_type := resource_type
          resource_id := resource_id
          tenant_id := ctx.tenant_id
          request_id := ctx.request_id
          session_id := ctx.session_id
          timestamp := kw.timestamp.getD now
          old_values := kw.old_values.getD none
          new_values := kw.new_values.getD none
          success := kw.success.getD true
          error_message := kw.error_message.getD none
          data_classification := kw.data_classification.getD .internal } := by
    unfold AuditEntry.from_context get_optional_request_context
    simp [h1, h2, h3, h4, h5, h6, h7, h8]
  refine ⟨_, hok, ?_, ?_, ?_, rfl, rfl, rfl, rfl, rfl, rfl, rfl, rfl, rfl, rfl, rfl,
    rfl, rfl, rfl, rfl⟩
  · intro u hu hne
    simp [hu, hne]
  · intro hu
    simp [hu]
  · intro hu
    simp [hu]

/-- Claim C5 witness: from_context at a concrete context with empty
extraFields. -/
theorem from_context_with_ambient_witness :
    ∃ e, AuditEntry.from_context (some ctxSample) 7 "r" AuditAction.read "document" "d1"
        FromContextKwargs.none' = Except.ok e ∧
      (∀ u, ctxSample.user_id = some u → u ≠ "" → e.actor_id = u) ∧
      (ctxSample.user_id = none → e.actor_id = "anonymous") ∧
      (ctxSample.user_id = some "" → e.actor_id = "anonymous") ∧
      e.actor_ip = ctxSample.client_ip ∧ e.tenant_id = ctxSample.tenant_id ∧
      e.request_id = ctxSample.request_id ∧ e.session_id = ctxSample.session_id ∧
      e.action = AuditAction.read ∧ e.resource_type = "document" ∧
      e.resource_id = "d1" ∧
      e.actor_type = FromContextKwargs.none'.actor_type.getD "user" ∧
      e.action_detail = FromContextKwargs.none'.action_detail.getD none ∧
      e.timestamp = FromContextKwargs.none'.timestamp.getD 7 ∧
      e.old_values = FromContextKwargs.none'.old_values.getD none ∧
      e.new_values = FromContextKwargs.none'.new_values.getD none ∧
      e.success = FromContextKwargs.none'.success.getD true ∧
      e.error_message = FromContextKwargs.none'.error_message.getD none ∧
      e.data_classification =
        FromContextKwargs.none'.data_classification.getD DataClassification.internal :=
  from_context_with_ambient ctxSample 7 "r" AuditAction.read "document" "d1"
    FromContextKwargs.none' (by decide) (by decide) (by decide) (by decide) (by decide)
    (by decide) (by decide) (by decide)

/-- extraFields carrying a tenant_id key, as the claim's overlay
semantics would permit. -/
def kwTenantOverride : FromContextKwargs :=
  { FromContextKwargs.none' with
    tenant_id := some "44444444-4444-4444-4444-444444444444" }

/-- Claim C5 counterexample: with an ambient Context, passing tenant_id
in extraFields does not overlay it — the call fails with Python's
duplicate-keyword-argument TypeError and no AuditEntry is constructed. -/
theorem from_context_overlay_cex :
    AuditEntry.from_context (some ctxSample) 0 "r" AuditAction.read "document" "d1"
      kwTenantOverride = Except.error FromContextError.duplicateKeyword := by decide

/-- Claim C8 (amended): the context established by the middleware takes
request_id from the X-Request-ID header when present (otherwise the
generated token), tenant_id from the X-Tenant-ID header when present
(otherwise the "default" sentinel), and client_ip from the first
comma-separated, whitespace-stripped entry of X-Forwarded-For when that
header is present and non-empty, otherwise the transport peer address. -/
theorem establish_context_spec (freshReq : String) (m : RequestMeta) :
    ((∀ v, headerGet m.headers "X-Request-ID" = some v →
        (RequestContextMiddleware.makeContext freshReq m).request_id = v) ∧
      (headerGet m.headers "X-Request-ID" = none →
        (RequestContextMiddleware.makeContext freshReq m).request_id = freshReq)) ∧
    ((∀ v, headerGet m.headers "X-Tenant-ID" = some v →
        (RequestContextMiddleware.makeContext freshReq m).tenant_id = v) ∧
      (headerGet m.headers "X-Tenant-ID" = none →
        (RequestContextMiddleware.makeContext freshReq m).tenant_id = "default")) ∧
    ((∀ f, headerGet m.headers "X-Forwarded-For" = some f → f ≠ "" →
        (RequestContextMiddleware.makeContext freshReq m).client_ip =
          some (firstForwarded f)) ∧
      (headerGet m.headers "X-Forwarded-For" = none ∨
          headerGet m.headers "X-Forwarded-For" = some "" →
        (RequestContextMiddleware.makeContext freshReq m).client_ip = m.client)) := by
  refine ⟨⟨?_, ?_⟩, ⟨?_, ?_⟩, ⟨?_, ?_⟩⟩
  · intro v h
    simp [RequestContextMiddleware.makeContext, h]
  · intro h
    simp [RequestContextMiddleware.makeContext, h]
  · intro v h
    simp [RequestContextMiddleware.makeContext, h]
  · intro h
    simp [RequestContextMiddleware.makeContext, h]
  · intro f h hne
    simp [RequestContextMiddleware.makeContext, h, hne]
  · rintro (h | h) <;> simp [RequestContextMiddleware.makeContext, h]

/-- Inbound metadata with all three headers present and non-empty. -/
def mSample : RequestMeta :=
  { headers := [("X-Request-ID", "req-1"), ("X-Tenant-ID", "tenant-1"),
      ("X-Forwarded-For", "1.2.3.4, 5.6.7.8")]
    client := some "9.9.9.9" }

/-- Claim C8 witness: a concrete request with all headers supplied. -/
theorem establish_context_spec_witness :
    (RequestContextMiddleware.makeContext "gen" mSample).request_id = "req-1" ∧
    (RequestContextMiddleware.makeContext "gen" mSample).tenant_id = "tenant-1" ∧
    (RequestContextMiddleware.makeContext "gen" mSample).client_ip =
      some (firstForwarded "1.2.3.4, 5.6.7.8") :=
  ⟨(establish_context_spec "gen" mSample).1.1 "req-1" (by decide),
    (establish_context_spec "gen" mSample).2.1.1 "tenant-1" (by decide),
    (establish_context_spec "gen" mSample).2.2.1 "1.2.3.4, 5.6.7.8" (by decide)
      (by decide)⟩

/-- Inbound metadata whose forwarded-for header is present but empty. -/
def mFwdEmpty : RequestMeta :=
  { headers := [("X-Forwarded-For", "")], client := some "10.0.0.1" }

/-- Claim C8 counterexample: with X-Forwarded-For present but empty the
middleware keeps the transport peer address, not the (empty) first entry
of the header, so "first entry whenever the header is present" fails. -/
theorem establish_forwarded_empty_cex :
    headerGet mFwdEmpty.headers "X-Forwarded-For" = some "" ∧
    (RequestContextMiddleware.makeContext "gen" mFwdEmpty).client_ip = some "10.0.0.1" ∧
    (RequestContextMiddleware.makeContext "gen" mFwdEmpty).client_ip ≠
      some (firstForwarded "") := by decide

/-- A sample stored audit row. -/
def recSample : AuditLog :=
  { id := "88888888-8888-8888-8888-888888888888"
    actor_id := "33333333-3333-3333-3333-333333333333"
    actor_type := "user"
    actor_ip := none
    action := "create"
    action_detail := none
    resource_type := "document"
    resource_id := "doc-1"
    tenant_id := "22222222-2222-2222-2222-222222222222"
    request_id := "11111111-1111-1111-1111-111111111111"
    session_id := none
    timestamp := 5
    old_values := none
    new_values := some [("title", "b")]
    success := true
    error_message := none
    data_classification := "internal" }

/-- Claim C4 witness: a store holding one record, then a query call. -/
theorem audit_store_append_only_witness :
    recSample ∈ apiRun [recSample]
        [APICall.queryCall "22222222-2222-2222-2222-222222222222" none none none none
          none none 100 0] ∧
    ∃ suffix, apiRun [recSample]
        [APICall.queryCall "22222222-2222-2222-2222-222222222222" none none none none
          none none 100 0] =
      [recSample] ++ suffix :=
  audit_store_append_only _ _ _ (by decide)

/-- Unpack the conjunctive WHERE predicate of a kept row. -/
theorem keepRec_spec {tU : String} {actorU : Option String} {rt rid : Option String}
    {action : Option AuditAction} {st et : Option Int} {r : AuditLog}
    (hk : keepRec tU actorU rt rid action st et r = true) :
    r.tenant_id = tU ∧
    (∀ u, actorU = some u → r.actor_id = u) ∧
    (∀ s, rt = some s → r.resource_type = s) ∧
    (∀ s, rid = some s → r.resource_id = s) ∧
    (∀ a, action = some a → r.action = a.value) ∧
    (∀ t, st = some t → t ≤ r.timestamp) ∧
    (∀ t, et = some t → r.timestamp ≤ t) := by
  unfold keepRec at hk
  simp only [Bool.and_eq_true, beq_iff_eq] at hk
  obtain ⟨⟨⟨⟨⟨⟨hten, hact⟩, hrt⟩, hrid⟩, hactn⟩, hst⟩, het⟩ := hk
  refine ⟨hten, ?_, ?_, ?_, ?_, ?_, ?_⟩
  · intro u hu; rw [hu] at hact; simpa using hact
  · intro s hs; rw [hs] at hrt; simpa using hrt
  · intro s hs; rw [hs] at hrid; simpa using hrid
  · intro a ha; rw [ha] at hactn; simpa using hactn
  · intro t ht; rw [ht] at hst; simpa using hst
  · intro t ht; rw [ht] at het; simpa using het

/-- Claim C1 (amended): every entry returned by
DatabaseAuditLogger.query belongs to the queried tenant (after UUID
normalization), came from a stored row matching every supplied filter
conjunctively (time bounds inclusive), the result is ordered by
timestamp descending and paged by offset/limit — at most limit entries,
and exactly what remains of the first offset+limit sorted matches after
the first offset are skipped; and no stored row of a different
normalized tenant is ever returned, regardless of the other filter
values. -/
theorem query_tenant_scoped (store : List AuditLog) (tid tU : String)
    (aid rt rid : Option String) (act : Option AuditAction) (st et : Option Int)
    (lim off : Nat) (res : List AuditEntry)
    (hU : pyUUID tid = some tU)
    (hq : DatabaseAuditLogger.query store tid aid rt rid act st et lim off =
      Except.ok res) :
    (∀ e ∈ res,
      e.tenant_id = tU ∧
      (∃ r ∈ store, recToEntry r = some e ∧ r.tenant_id = tU) ∧
      (∀ a u, aid = some a → a ≠ "" → pyUUID a = some u → e.actor_id = u) ∧
      (∀ s, rt = some s → s ≠ "" → e.resource_type = s) ∧
      (∀ s, rid = some s → s ≠ "" → e.resource_id = s) ∧
      (∀ a, act = some a → e.action = a) ∧
      (∀ t, st = some t → t ≤ e.timestamp) ∧
      (∀ t, et = some t → e.timestamp ≤ t)) ∧
    res.Pairwise (fun a b => b.timestamp ≤ a.timestamp) ∧
    res.length ≤ lim ∧
    (∀ full, DatabaseAuditLogger.query store tid aid rt rid act st et (off + lim) 0 =
      Except.ok full → res = full.drop off) ∧
    (∀ r : AuditLog, r.tenant_id ≠ tU → ∀ e ∈ res, recToEntry r ≠ some e) := by
  unfold DatabaseAuditLogger.query at hq
  simp only [hU] at hq
  cases hA : parseActorFilter aid with
  | none => simp only [hA] at hq; exact absurd hq (by simp)
  | some actorU =>
    simp only [hA] at hq
    cases hM : mapMrec (((sortDesc (store.filter
        (keepRec tU actorU (truthyOpt rt) (truthyOpt rid) act st et))).drop off).take
          lim) with
    | none => simp only [hM] at hq; exact absurd hq (by simp)
    | some es =>
      simp only [hM] at hq
      injection hq with hq'
      subst hq'
      have hmem : ∀ e ∈ es, ∃ r, r ∈ store ∧
          keepRec tU actorU (truthyOpt rt) (truthyOpt rid) act st et r = true ∧
          recToEntry r = some e := by
        intro e he
        rcases mapMrec_mem hM he with ⟨r, hrpage, hconv⟩
        have hr2 := mem_sortDesc.mp
          (List.mem_of_mem_drop (List.mem_of_mem_take hrpage))
        rcases List.mem_filter.mp hr2 with ⟨hrs, hkeep⟩
        exact ⟨r, hrs, hkeep, hconv⟩
      have hper : ∀ e ∈ es,
          e.tenant_id = tU ∧
          (∃ r ∈ store, recToEntry r = some e ∧ r.tenant_id = tU) ∧
          (∀ a u, aid = some a → a ≠ "" → pyUUID a = some u → e.actor_id = u) ∧
          (∀ s, rt = some s → s ≠ "" → e.resource_type = s) ∧
          (∀ s, rid = some s → s ≠ "" → e.resource_id = s) ∧
          (∀ a, act = some a → e.action = a) ∧
          (∀ t, st = some t → t ≤ e.timestamp) ∧
          (∀ t, et = some t → e.timestamp ≤ t) := by
        intro e he
        rcases hmem e he with ⟨r, hrs, hkeep, hconv⟩
        have hf := recToEntry_fields hconv
        have hk := keepRec_spec hkeep
        refine ⟨?_, ⟨r, hrs, hconv, hk.1⟩, ?_, ?_, ?_, ?_, ?_, ?_⟩
        · rw [hf.2.2.2.2.2.2.2.1]; exact hk.1
        · intro a u ha hne hu
          have : actorU = some u := by
            rw [ha] at hA
            simp [parseActorFilter, hne, hu] at hA
            first
            | exact hA
            | exact hA.symm
          rw [hf.1]; exact hk.2.1 u this
        · intro s hs hne
          have : truthyOpt rt = some s := by
            rw [hs]; simp [truthyOpt, hne]
          rw [hf.2.2.2.2.2.1]; exact hk.2.2.1 s this
        · intro s hs hne
          have : truthyOpt rid = some s := by
            rw [hs]; simp [truthyOpt, hne]
          rw [hf.2.2.2.2.2.2.1]; exact hk.2.2.2.1 s this
        · intro a ha
          have hval : r.action = a.value := hk.2.2.2.2.1 a ha
          have := hf.2.2.2.1
          rw [hval, actionOfString_value] at this
          exact (Option.some.inj this).symm
        · intro t ht
          rw [hf.2.2.2.2.2.2.2.2.2.2.1]; exact hk.2.2.2.2.2.1 t ht
        · intro t ht
          rw [hf.2.2.2.2.2.2.2.2.2.2.1]; exact hk.2.2.2.2.2.2 t ht
      refine ⟨hper, ?_, ?_, ?_, ?_⟩
      · exact mapMrec_pairwise hM
          (List.Pairwise.sublist
            ((List.take_sublist _ _).trans (List.drop_sublist _ _))
            (pairwise_sortDesc _))
      · rw [mapMrec_length hM, List.length_take]
        exact min_le_left _ _
      · intro full hfull
        unfold DatabaseAuditLogger.query at hfull
        simp only [hU, hA] at hfull
        cases hM2 : mapMrec (((sortDesc (store.filter
            (keepRec tU actorU (truthyOpt rt) (truthyOpt rid) act st et))).drop 0).take
              (off + lim)) with
        | none => simp only [hM2] at hfull; exact absurd hfull (by simp)
        | some full' =>
          simp only [hM2] at hfull
          injection hfull with hfull'
          subst hfull'
          rw [List.drop_zero] at hM2
          have hdrop := mapMrec_drop hM2 off
          rw [← List.take_drop] at hdrop
          rw [hM] at hdrop
          exact Option.some.inj hdrop
      · intro r hne e he hcr
        have h1 := (hper e he).1
        have h2 := (recToEntry_fields hcr).2.2.2.2.2.2.2.1
        exact hne (h2 ▸ h1)

/-- The row produced by log for an entry whose UUID fields are already
canonical (so the UUID conversions are the identity). -/
def recOf (entry : AuditEntry) (freshId : String) : AuditLog :=
  { id := freshId
    actor_id := entry.actor_id
    actor_type := entry.actor_type
    actor_ip := entry.actor_ip
    action := entry.action.value
    action_detail := entry.action_detail
    resource_type := entry.resource_type
    resource_id := entry.resource_id
    tenant_id := entry.tenant_id
    request_id := entry.request_id
    session_id := entry.session_id
    timestamp := entry.timestamp
    old_values := entry.old_values
    new_values := entry.new_values
    success := entry.success
    error_message := entry.error_message
    data_classification := entry.data_classification.value }

/-- Claim C2 (amended): an entry whose actor_id, tenant_id, request_id
and (when present) session_id are canonical UUID strings — in
particular, an actor_id that is not the literal "anonymous" — is logged
unchanged, and a query for its tenant over the resulting store returns
an entry whose every field equals the corresponding field of the logged
entry. -/
theorem log_query_roundtrip (freshActor freshId : String) (e : AuditEntry)
    (store : List AuditLog)
    (hwf : ∀ r ∈ store, (recToEntry r).isSome = true)
    (ha : pyUUID e.actor_id = some e.actor_id)
    (ht : pyUUID e.tenant_id = some e.tenant_id)
    (hr : pyUUID e.request_id = some e.request_id)
    (hs : e.session_id = none ∨ ∃ s, e.session_id = some s ∧ pyUUID s = some s) :
    ∃ store' res,
      DatabaseAuditLogger.log freshActor freshId e store =
        (Except.ok freshId, store') ∧
      DatabaseAuditLogger.query store' e.tenant_id none none none none none none
        store'.length 0 = Except.ok res ∧
      e ∈ res := by
  have hanon : e.actor_id ≠ "anonymous" := by
    intro hx
    rw [hx] at ha
    exact absurd ha (by decide)
  have hsess : (match e.session_id with
      | some s => if s = "" then some none else (pyUUID s).map some
      | none => some none) = some e.session_id := by
    rcases hs with hs | ⟨s, hs, hps⟩
    · rw [hs]
    · have hne : s ≠ "" := by
        intro hx; rw [hx] at hps; exact absurd hps (by decide)
      rw [hs]
      simp [hne, hps]
  have hlog : DatabaseAuditLogger.log freshActor freshId e store =
      (Except.ok freshId, store ++ [recOf e freshId]) := by
    unfold DatabaseAuditLogger.log
    simp only [if_neg hanon, ha, ht, hr, hsess, recOf]
  have hconv : recToEntry (recOf e freshId) = some e := by
    simp [recToEntry, recOf, actionOfString_value, classificationOfString_value]
  have hwf' : ∀ r ∈ store ++ [recOf e freshId], (recToEntry r).isSome = true := by
    intro r hrm
    rcases List.mem_append.mp hrm with hrm | hrm
    · exact hwf r hrm
    · rcases List.mem_singleton.mp hrm with rfl
      rw [hconv]; rfl
  have hkeep : keepRec e.tenant_id none none none none none none
      (recOf e freshId) = true := by
    simp [keepRec, recOf]
  have hwfsorted : ∀ r ∈ sortDesc ((store ++ [recOf e freshId]).filter
      (keepRec e.tenant_id none none none none none none)),
      (recToEntry r).isSome = true := by
    intro r hrm
    exact hwf' r (List.mem_filter.mp (mem_sortDesc.mp hrm)).1
  rcases mapMrec_isSome hwfsorted with ⟨res, hres⟩
  have hmemf : recOf e freshId ∈ sortDesc ((store ++ [recOf e freshId]).filter
      (keepRec e.tenant_id none none none none none none)) := by
    rw [mem_sortDesc]
    exact List.mem_filter.mpr
      ⟨List.mem_append_right _ (List.mem_singleton.mpr rfl), hkeep⟩
  rcases mapMrec_mem_of hres hmemf with ⟨e', he'mem, he'conv⟩
  have hee : e' = e := by
    rw [hconv] at he'conv
    exact (Option.some.inj he'conv).symm
  have hlen : (sortDesc ((store ++ [recOf e freshId]).filter
      (keepRec e.tenant_id none none none none none none))).length ≤
      (store ++ [recOf e freshId]).length := by
    rw [length_sortDesc]
    exact List.length_filter_le _ _
  have hq : DatabaseAuditLogger.query (store ++ [recOf e freshId]) e.tenant_id
      none none none none none none (store ++ [recOf e freshId]).length 0 =
      Except.ok res := by
    unfold DatabaseAuditLogger.query
    simp only [ht, parseActorFilter, truthyOpt, List.drop_zero,
      List.take_of_length_le hlen, hres]
  exact ⟨store ++ [recOf e freshId], res, hlog, hq, hee ▸ he'mem⟩

/-- The tenant used by the concrete query scenarios. -/
def wTid : String := "aaaaaaaa-aaaa-aaaa-aaaa-aaaaaaaaaaaa"

/-- A stored row for tenant wTid at a given timestamp. -/
def wRecAt (rid : String) (ts : Int) : AuditLog :=
  { id := rid
    actor_id := "33333333-3333-3333-3333-333333333333"
    actor_type := "user"
    actor_ip := none
    action := "create"
    action_detail := none
    resource_type := "document"
    resource_id := "doc-1"
    tenant_id := wTid
    request_id := "11111111-1111-1111-1111-111111111111"
    session_id := none
    timestamp := ts
    old_values := none
    new_values := none
    success := true
    error_message := none
    data_classification := "internal" }

/-- Three rows for one tenant, timestamped 0, 3600 and 7200. -/
def wStore : List AuditLog :=
  [wRecAt "e1e1e1e1-0000-0000-0000-000000000001" 0,
   wRecAt "e1e1e1e1-0000-0000-0000-000000000002" 3600,
   wRecAt "e1e1e1e1-0000-0000-0000-000000000003" 7200]

/-- The converted entry for a wTid row at a given timestamp. -/
def wEntryAt (ts : Int) : AuditEntry :=
  { actor_id := "33333333-3333-3333-3333-333333333333"
    actor_type := "user"
    actor_ip := none
    action := AuditAction.create
    action_detail := none
    resource_type := "document"
    resource_id := "doc-1"
    tenant_id := wTid
    request_id := "11111111-1111-1111-1111-111111111111"
    session_id := none
    timestamp := ts
    old_values := none
    new_values := none
    success := true
    error_message := none
    data_classification := DataClassification.internal }

/-- The page a window query over wStore returns: the two newest rows in
the window, descending. -/
def wRes : List AuditEntry := [wEntryAt 7200, wEntryAt 3600]

/-- Claim C1 witness: three entries at 0, 3600, 7200 for one tenant,
queried with the inclusive window from 1800 to 7200, return exactly the
two newest, descending. -/
theorem query_tenant_scoped_witness :
    (∀ e ∈ wRes,
      e.tenant_id = wTid ∧
      (∃ r ∈ wStore, recToEntry r = some e ∧ r.tenant_id = wTid) ∧
      (∀ a u, (none : Option String) = some a → a ≠ "" → pyUUID a = some u →
        e.actor_id = u) ∧
      (∀ s, (none : Option String) = some s → s ≠ "" → e.resource_type = s) ∧
      (∀ s, (none : Option String) = some s → s ≠ "" → e.resource_id = s) ∧
      (∀ a, (none : Option AuditAction) = some a → e.action = a) ∧
      (∀ t, (some 1800 : Option Int) = some t → t ≤ e.timestamp) ∧
      (∀ t, (some 7200 : Option Int) = some t → e.timestamp ≤ t)) ∧
    wRes.Pairwise (fun a b => b.timestamp ≤ a.timestamp) ∧
    wRes.length ≤ 100 ∧
    (∀ full, DatabaseAuditLogger.query wStore wTid none none none none (some 1800)
      (some 7200) (0 + 100) 0 = Except.ok full → wRes = full.drop 0) ∧
    (∀ r : AuditLog, r.tenant_id ≠ wTid → ∀ e ∈ wRes, recToEntry r ≠ some e) :=
  query_tenant_scoped wStore wTid wTid none none none none (some 1800) (some 7200)
    100 0 wRes (by decide) (by decide)

/-- A fully canonical audit entry. -/
def eCanon : AuditEntry :=
  { actor_id := "33333333-3333-3333-3333-333333333333"
    actor_type := "user"
    actor_ip := some "10.0.0.1"
    action := AuditAction.update
    action_detail := some "edit"
    resource_type := "document"
    resource_id := "doc-1"
    tenant_id := "22222222-2222-2222-2222-222222222222"
    request_id := "11111111-1111-1111-1111-111111111111"
    session_id := some "55555555-5555-5555-5555-555555555555"
    timestamp := 1000
    old_values := some [("title", "a")]
    new_values := some [("title", "b")]
    success := true
    error_message := none
    data_classification := DataClassification.confidential }

/-- Claim C1 counterexample: the entry is logged with the hyphenated
tenant string, yet a query whose tenantId is the different (unhyphenated)
string still returns it, because the store compares tenants after UUID
normalization — so "never returned when the tenant strings differ" is
false as stated. -/
theorem tenant_string_mismatch_cex :
    "22222222222222222222222222222222" ≠ eCanon.tenant_id ∧
    DatabaseAuditLogger.query
      (DatabaseAuditLogger.log "99999999-9999-9999-9999-999999999999"
        "88888888-8888-8888-8888-888888888888" eCanon []).2
      "22222222222222222222222222222222" none none none none none none 100 0 =
      Except.ok [eCanon] := by decide

/-- Claim C2 witness: the canonical entry round-trips through log and
query over an initially empty store. -/
theorem log_query_roundtrip_witness :
    ∃ store' res,
      DatabaseAuditLogger.log "99999999-9999-9999-9999-999999999999"
        "88888888-8888-8888-8888-888888888888" eCanon [] =
        (Except.ok "88888888-8888-8888-8888-888888888888", store') ∧
      DatabaseAuditLogger.query store' eCanon.tenant_id none none none none none none
        store'.length 0 = Except.ok res ∧
      eCanon ∈ res :=
  log_query_roundtrip "99999999-9999-9999-9999-999999999999"
    "88888888-8888-8888-8888-888888888888" eCanon [] (by decide) (by decide)
    (by decide) (by decide)
    (Or.inr ⟨"55555555-5555-5555-5555-555555555555", by decide, by decide⟩)

/-- The canonical entry with the literal "anonymous" actor. -/
def eAnon : AuditEntry := { eCanon with actor_id := "anonymous" }

/-- Claim C2 counterexample: an entry logged with actor_id "anonymous"
is stored under a freshly generated UUID, so the entry returned by the
matching query differs from the logged entry in its actor_id field — the
byte-for-byte round-trip fails. -/
theorem roundtrip_anonymous_cex :
    (DatabaseAuditLogger.log "99999999-9999-9999-9999-999999999999"
      "88888888-8888-8888-8888-888888888888" eAnon []).1 =
      Except.ok "88888888-8888-8888-8888-888888888888" ∧
    DatabaseAuditLogger.query
      (DatabaseAuditLogger.log "99999999-9999-9999-9999-999999999999"
        "88888888-8888-8888-8888-888888888888" eAnon []).2
      eAnon.tenant_id none none none none none none 100 0 =
      Except.ok [{ eAnon with actor_id := "99999999-9999-9999-9999-999999999999" }] ∧
    "99999999-9999-9999-9999-999999999999" ≠ eAnon.actor_id := by decide

/-- An entry whose tenant_id is a 0x-prefixed 32-character string: not a
syntactically valid UUID string (every textual UUID form of length 32 is
pure hexadecimal, and 'x' is not a hex digit), yet accepted by the UUID
constructor through int(hex, 16). -/
def e0x : AuditEntry :=
  { eCanon with tenant_id := "0x222222222222222222222222222222" }

/-- Claim C10 counterexample: log does not raise on this syntactically
invalid UUID tenant string — it succeeds and persists a record, stored
under the parsed, zero-padded value — so "log raises for every entry
whose tenant_id is not a syntactically valid UUID string" is false as
stated. -/
theorem log_accepts_nonuuid_tenant_cex :
    e0x.tenant_id.length = 32 ∧
    e0x.tenant_id.toList.all isHexChar = false ∧
    DatabaseAuditLogger.log "99999999-9999-9999-9999-999999999999"
      "88888888-8888-8888-8888-888888888888" e0x [] =
      (Except.ok "88888888-8888-8888-8888-888888888888",
       [{ recOf e0x "88888888-8888-8888-8888-888888888888" with
          tenant_id := "00222222-2222-2222-2222-222222222222" }]) := by decide
